import Mathlib

/-!
Shallow embedding of the tabular-data inspection and charting pipeline of the
`python-coding-test` Streamlit repository, together with verification of the
behavioural claims about it.

The embedding models a pandas `DataFrame` as an ordered list of typed, named
columns plus a list of rows; numeric cells are rationals (the code's float
arithmetic, modelled exactly on ℚ), text cells are strings.  Each Lean
definition is translated from the Python source file noted in its doc comment.
-/

/-- A single cell of a dataframe: either a numeric value or a text value. -/
inductive CellValue where
  | num (x : ℚ)
  | str (s : String)
deriving DecidableEq, Repr

/-- The pandas dtype of a column, as the source code distinguishes them via
`select_dtypes(include=["number"])` versus `include=["object", "category"]`. -/
inductive Dtype where
  | number
  | object
deriving DecidableEq, Repr

/-- A row is the list of its cells, aligned with the column list. -/
abbrev Row := List CellValue

/-- A dataframe: ordered named, typed columns and a list of rows. -/
structure DataFrame where
  cols : List (String × Dtype)
  rows : List Row
deriving DecidableEq, Repr

/-- The (ordered) column names of a dataframe (`df.columns`). -/
def DataFrame.colNames (df : DataFrame) : List String :=
  df.cols.map Prod.fst

/-- Index of a named column: position of the first column with that name. -/
def DataFrame.colIdx (df : DataFrame) (c : String) : Option Nat :=
  df.cols.findIdx? (fun p => p.1 == c)

/-- The cell of row `r` in column `c` of `df`, if present. -/
def DataFrame.getCell (df : DataFrame) (r : Row) (c : String) : Option CellValue :=
  (df.colIdx c).bind (fun i => r.get? i)

/-- All cells of column `c`, top to bottom (`df[col]`). -/
def DataFrame.colCells (df : DataFrame) (c : String) : List CellValue :=
  df.rows.filterMap (fun r => df.getCell r c)

/-- The numeric values among a list of cells. -/
def numsOf (cells : List CellValue) : List ℚ :=
  cells.filterMap (fun v => match v with | .num x => some x | .str _ => none)

/-- Names of the numeric columns, in column order
(`df.select_dtypes(include=["number"]).columns`). -/
def DataFrame.numericCols (df : DataFrame) : List String :=
  (df.cols.filter (fun p => p.2 == Dtype.number)).map Prod.fst

/-- Names of the object (categorical/text) columns, in column order
(`df.select_dtypes(include=["object", "category"]).columns`). -/
def DataFrame.objectCols (df : DataFrame) : List String :=
  (df.cols.filter (fun p => p.2 == Dtype.object)).map Prod.fst

/-- `df[col].nunique()`: number of distinct cell values in column `c`. -/
def DataFrame.nunique (df : DataFrame) (c : String) : Nat :=
  (df.colCells c).toFinset.card

/-! ## Data filtering (`pages/visualization.py`, `render_data_filtering`) -/

/-- A filter specification, as collected by the filtering controls: a chosen
numeric range per (filterable) numeric column and a chosen list of allowed
values per (filterable) categorical column. -/
structure FilterSpec where
  numRanges : List (String × ℚ × ℚ)
  catAllowed : List (String × List CellValue)

/-- The gate `min_val != max_val` of `render_data_filtering`: a numeric column
is only filtered when its minimum differs from its maximum.  (On an empty
column pandas yields `NaN != NaN`, which is false, so the gate is closed;
`List.min?` on `[]` is `none = none`, matching.) -/
def numGate (df : DataFrame) (c : String) : Bool :=
  let vals := numsOf (df.colCells c)
  vals.min? != vals.max?

/-- The gate `df[col].nunique() <= 20` of `render_data_filtering`: a
categorical column is only filtered when it has at most 20 distinct values. -/
def catGate (df : DataFrame) (c : String) : Bool :=
  df.nunique c ≤ 20

/-- The row predicate of the mask
`(filtered_df[col] >= lo) & (filtered_df[col] <= hi)`: the cell is a number
inside the closed range.  A missing or non-numeric cell compares false, as a
pandas comparison with `NaN` does. -/
def inRange (df : DataFrame) (r : Row) (c : String) (lo hi : ℚ) : Bool :=
  match df.getCell r c with
  | some (.num x) => lo ≤ x ∧ x ≤ hi
  | _ => false

/-- The row predicate of the mask `filtered_df[col].isin(selected_values)`. -/
def inAllowed (df : DataFrame) (r : Row) (c : String) (allowed : List CellValue) : Bool :=
  match df.getCell r c with
  | some v => v ∈ allowed
  | none => false

/-- The numeric-column loop of `render_data_filtering`: for each numeric
column (gates and ranges are computed on the original `df`), successively
restrict the current row list. A column without an entry in the
specification is left unfiltered. -/
def applyNumericFilters (df : DataFrame) (spec : FilterSpec) (cur : List Row) : List Row :=
  df.numericCols.foldl (fun acc c =>
    match spec.numRanges.find? (fun p => p.1 == c) with
    | some (_, lo, hi) =>
        if numGate df c then acc.filter (fun r => inRange df r c lo hi) else acc
    | none => acc) cur

/-- The categorical-column loop of `render_data_filtering`: for each object
column with at most 20 distinct values (computed on the original `df`), keep
rows whose value is among the selected ones; an empty selection applies no
filter (`if selected_values:`). -/
def applyCatFilters (df : DataFrame) (spec : FilterSpec) (cur : List Row) : List Row :=
  df.objectCols.foldl (fun acc c =>
    match spec.catAllowed.find? (fun p => p.1 == c) with
    | some (_, allowed) =>
        if catGate df c ∧ allowed ≠ [] then acc.filter (fun r => inAllowed df r c allowed) else acc
    | none => acc) cur

/-- `render_data_filtering` (pages/visualization.py, lines 130–187): start
from a copy of `df`, run the numeric-column filters, then the
categorical-column filters; the column structure is untouched. -/
def render_data_filtering (df : DataFrame) (spec : FilterSpec) : DataFrame :=
  { cols := df.cols, rows := applyCatFilters df spec (applyNumericFilters df spec df.rows) }

/-! ## Dataset loading (`pages/data_analysis.py`, `load_uploaded_data`) -/

/-- Outcome of loading an uploaded file: the full dataframe, the
"Unsupported file format" rejection, or the caught-and-reported load error. -/
inductive LoadResult where
  | ok (df : DataFrame)
  | unsupportedFormat (name : String)
  | loadError (msg : String)
deriving DecidableEq, Repr

/-- Python's `str.endswith`: a case-sensitive suffix test, modelled on the
character list. -/
def pyEndsWith (s suffix : String) : Bool :=
  suffix.data.isSuffixOf s.data

/-- Lift a decoder outcome into a `LoadResult`: the whole parsed dataframe on
success, the reported error otherwise (the `except` branch of
`load_uploaded_data`). -/
def ofParse (res : Except String DataFrame) : LoadResult :=
  match res with
  | .ok df => .ok df
  | .error e => .loadError e

/-- `load_uploaded_data` (pages/data_analysis.py, lines 16–45): dispatch on
the filename suffix — `.csv` to the CSV decoder, else `.json` to the JSON
decoder, else reject the format; decoder failures are caught and reported.
The pandas decoders themselves are external library code and are passed in as
parameters. -/
def load_uploaded_data (csvDecode jsonDecode : String → Except String DataFrame)
    (name content : String) : LoadResult :=
  if pyEndsWith name ".csv" then ofParse (csvDecode content)
  else if pyEndsWith name ".json" then ofParse (jsonDecode content)
  else .unsupportedFormat name

/-! ## Chart construction (`components/charts.py`) -/

/-- Python's `str.title()` on a character list: the first letter of each
alphabetic run is upper-cased, subsequent letters lower-cased.  The boolean
carries "the previous character was a letter". -/
def pyTitleAux : Bool → List Char → List Char
  | _, [] => []
  | prev, ch :: rest =>
      if ch.isAlpha then
        (if prev then ch.toLower else ch.toUpper) :: pyTitleAux true rest
      else
        ch :: pyTitleAux false rest

/-- Python's `str.title()`. -/
def pyTitle (s : String) : String :=
  String.mk (pyTitleAux false s.data)

/-- The axis-title derivation `col.replace("_", " ").title()`. -/
def axisTitle (c : String) : String :=
  pyTitle (c.replace "_" " ")

/-- The chart value materialized by the builders: the chart parameters
plotly records, plus the layout fields set by `update_layout`. -/
structure Figure where
  kind : String
  data : DataFrame
  x_col : String
  y_col : String
  color_col : Option String
  size_col : Option String
  title : String
  height : Nat
  xaxis_title : String
  yaxis_title : String
  showlegend : Bool
deriving DecidableEq, Repr

/-- Modelled library behaviour of `plotly.express`: referencing a column name
that is not in the dataframe raises; otherwise the figure is built. -/
def pxMissingMsg (c : String) : String :=
  "Value of " ++ c ++ " is not the name of a column in data_frame"

/-- Modelled from the plotly express constructors (`px.bar` / `px.line` /
`px.scatter`): fail when the x, y, color or size column is absent from the
dataframe, otherwise return the fully built figure. -/
def pxChart (kind : String) (data : DataFrame) (x y : String)
    (color size : Option String) (title : String) (height : Nat) :
    Except String Figure :=
  if x ∉ data.colNames then .error (pxMissingMsg x)
  else if y ∉ data.colNames then .error (pxMissingMsg y)
  else match color with
  | some c =>
      if c ∉ data.colNames then .error (pxMissingMsg c)
      else match size with
        | some sc =>
            if sc ∉ data.colNames then .error (pxMissingMsg sc)
            else .ok (Figure.mk kind data x y color size title height "" "" false)
        | none => .ok (Figure.mk kind data x y color size title height "" "" false)
  | none => match size with
      | some sc =>
          if sc ∉ data.colNames then .error (pxMissingMsg sc)
          else .ok (Figure.mk kind data x y color size title height "" "" false)
      | none => .ok (Figure.mk kind data x y color size title height "" "" false)

/-- The `update_layout` call shared by the three builders: derived axis titles
and legend visibility tied to the presence of a color column. -/
def updateLayout (fig : Figure) : Figure :=
  { fig with
    xaxis_title := axisTitle fig.x_col
    yaxis_title := axisTitle fig.y_col
    showlegend := fig.color_col.isSome }

/-- `create_bar_chart` (components/charts.py, lines 13–74): build the bar
figure and update its layout; any exception is wrapped into
`ValueError("Failed to create bar chart: ...")`. -/
def create_bar_chart (data : DataFrame) (x_col y_col : String)
    (title : String) (color_col : Option String) (height : Nat) :
    Except String Figure :=
  match pxChart "bar" data x_col y_col color_col none title height with
  | .ok fig => .ok (updateLayout fig)
  | .error e => .error ("Failed to create bar chart: " ++ e)

/-- `create_line_chart` (components/charts.py, lines 77–140), analogous. -/
def create_line_chart (data : DataFrame) (x_col y_col : String)
    (title : String) (color_col : Option String) (height : Nat) :
    Except String Figure :=
  match pxChart "line" data x_col y_col color_col none title height with
  | .ok fig => .ok (updateLayout fig)
  | .error e => .error ("Failed to create line chart: " ++ e)

/-- `create_scatter_plot` (components/charts.py, lines 143–211), analogous,
with the optional size column. -/
def create_scatter_plot (data : DataFrame) (x_col y_col : String)
    (title : String) (color_col size_col : Option String) (height : Nat) :
    Except String Figure :=
  match pxChart "scatter" data x_col y_col color_col size_col title height with
  | .ok fig => .ok (updateLayout fig)
  | .error e => .error ("Failed to create scatter plot: " ++ e)

/-! ## Data quality check (`pages/data_analysis.py`, `render_data_quality_check`) -/

/-- Whether a single cell survives `pd.to_numeric(..., errors="raise")`:
numeric cells always do, text cells exactly when the numeric coercion
(library code, passed as `coerce`) succeeds. -/
def cellCoercible (coerce : String → Option ℚ) (v : CellValue) : Bool :=
  match v with
  | .num _ => true
  | .str s => (coerce s).isSome

/-- The message appended to `type_issues` for a flagged column. -/
def typeIssueMsg (c : String) : String :=
  "Column '" ++ c ++ "' contains numeric data but is stored as text"

/-- The `type_issues` loop of `render_data_quality_check`
(pages/data_analysis.py, lines 208–227): for every column of object dtype,
if coercing every value to a number succeeds, flag the column. -/
def type_issues (coerce : String → Option ℚ) (df : DataFrame) : List String :=
  df.cols.foldl (fun issues p =>
    if p.2 == Dtype.object then
      if (df.colCells p.1).all (cellCoercible coerce) then issues ++ [typeIssueMsg p.1]
      else issues
    else issues) []

/-! ## Statistical summary (`pages/data_analysis.py`, `render_statistical_summary`) -/

/-- The text values of an object column, in row order (the values the
categorical summary runs over). -/
def DataFrame.catStrings (df : DataFrame) (c : String) : List String :=
  (df.colCells c).filterMap (fun v => match v with | .str s => some s | .num _ => none)

/-- The distinct values of a list in order of first encounter. -/
def firstUniques (l : List String) : List String :=
  l.foldl (fun acc v => if v ∈ acc then acc else acc ++ [v]) []

/-- The maximal number of occurrences of any single value. -/
def maxCount (l : List String) : Nat :=
  ((firstUniques l).map (fun v => l.count v)).max?.getD 0

/-- Lexicographic code-point comparison of character lists: the order Python
uses on strings. -/
def charListLe : List Char → List Char → Bool
  | [], _ => true
  | _ :: _, [] => false
  | a :: as, b :: bs =>
      if a.toNat < b.toNat then true
      else if b.toNat < a.toNat then false
      else charListLe as bs

/-- Python's string comparison `a <= b`. -/
def strLe (a b : String) : Bool :=
  charListLe a.data b.data

/-- Insert a string into an ascending list, keeping it ascending. -/
def insertAsc (v : String) : List String → List String
  | [] => [v]
  | w :: ws => if strLe v w then v :: w :: ws else w :: insertAsc v ws

/-- Sort a list of strings ascending (insertion sort). -/
def sortAsc (l : List String) : List String :=
  l.foldr insertAsc []

/-- Modelled library behaviour of `pandas.Series.mode()`: the values of
maximal frequency, returned sorted in ascending order. -/
def pandasMode (l : List String) : List String :=
  sortAsc ((firstUniques l).filter (fun v => l.count v == maxCount l))

/-- The "Most Frequent" entry of the categorical summary
(pages/data_analysis.py, lines 154–171): `df[col].mode().iloc[0]`, i.e. the
head of the sorted mode list; `none` models the "N/A" branch for an empty
mode list. -/
def mostFrequent (l : List String) : Option String :=
  (pandasMode l).head?

/-! ## Sample data generation (`components/charts.py`, `load_sample_data`) -/

/-- The numpy global random generator, modelled abstractly: an opaque state
(a natural number) threaded through the draws.  The sampling routines
themselves are library code; any family of samplers can be plugged in, the
repository's code only fixes the seed and the order of the draws. -/
structure Sampler where
  seedState : Nat → Nat
  normal : Nat → ℚ → ℚ → Nat → List ℚ × Nat
  choice : Nat → List String → Nat → List String × Nat
  poisson : Nat → ℚ → Nat → List Nat × Nat

/-- A sampler that honours the requested draw counts (as numpy does). -/
def Sampler.WellSized (S : Sampler) : Prop :=
  (∀ st μ σ n, ((S.normal st μ σ n).1.length = n))
  ∧ (∀ st vs n, ((S.choice st vs n).1.length = n))
  ∧ (∀ st lam n, ((S.poisson st lam n).1.length = n))

/-- `.astype(int)`: truncation of a float toward zero. -/
def truncInt (q : ℚ) : ℤ :=
  if 0 ≤ q then q.floor else q.ceil

/-- `np.clip(x, lo, hi)`. -/
def npClip (x lo hi : ℚ) : ℚ :=
  min (max x lo) hi

/-- `.round(1)`: rounding to one decimal place (ties are a float detail of
numpy's even rounding; modelled with the standard round). -/
def roundTo1 (q : ℚ) : ℚ :=
  (round (q * 10) : ℤ) / 10

/-- Assemble the rows of the sample dataframe from the seven column value
lists (date index, sales, profit, category, region, customer count,
satisfaction); as in a dataframe built from equal-length arrays, assembly
consumes the lists in lockstep. -/
def sampleRows : List ℚ → List ℤ → List ℤ → List String → List String →
    List ℕ → List ℚ → List Row
  | d :: ds, s :: ss, p :: ps, c :: cs, r :: rs, k :: ks, t :: ts =>
      [CellValue.num d, CellValue.num (s : ℚ), CellValue.num (p : ℚ),
       CellValue.str c, CellValue.str r, CellValue.num (k : ℚ),
       CellValue.num t] :: sampleRows ds ss ps cs rs ks ts
  | _, _, _, _, _, _, _ => []

/-- The column structure of the sample dataframe: the six dict keys in
insertion order, then `satisfaction` appended by the later assignment. -/
def sampleCols : List (String × Dtype) :=
  [("date", Dtype.number), ("sales", Dtype.number), ("profit", Dtype.number),
   ("category", Dtype.object), ("region", Dtype.object),
   ("customer_count", Dtype.number), ("satisfaction", Dtype.number)]

/-- `load_sample_data` (components/charts.py, lines 214–251): seed the global
generator with 42, draw sales/profit/category/region/customer_count, then
overwrite profit as `0.15 * sales` plus noise and derive satisfaction as the
clipped, rounded profit/sales ratio.  The date column is modelled as the day
offset from 2024-01-01.  Returns the dataframe together with the final
generator state. -/
def load_sample_data (S : Sampler) (_st0 : Nat) : DataFrame × Nat :=
  let st1 := S.seedState 42
  let salesDraw := S.normal st1 1000 200 100
  let profitDraw := S.normal salesDraw.2 150 50 100
  let catDraw := S.choice profitDraw.2 ["A", "B", "C"] 100
  let regDraw := S.choice catDraw.2 ["North", "South", "East", "West"] 100
  let custDraw := S.poisson regDraw.2 50 100
  let sales := salesDraw.1.map truncInt
  let noiseDraw := S.normal custDraw.2 0 30 100
  let profit := (sales.zip noiseDraw.1).map
    (fun p => truncInt ((p.1 : ℚ) * (15 / 100) + p.2))
  let satNoiseDraw := S.normal noiseDraw.2 0 (1 / 2) 100
  let satisfaction := ((profit.zip sales).zip satNoiseDraw.1).map
    (fun p => roundTo1 (npClip ((p.1.1 : ℚ) / (p.1.2 : ℚ) * 100 * 5 + p.2) 1 5))
  let dates := (List.range 100).map (Nat.cast : Nat → ℚ)
  (⟨sampleCols,
    sampleRows dates sales profit catDraw.1 regDraw.1 custDraw.1 satisfaction⟩,
   satNoiseDraw.2)

/-- The per-column test induced by an association-list lookup: columns
without an entry test true. -/
def lookupStep {β : Type} (entries : List (String × β)) (Q : String → β → Bool)
    (c : String) : Bool :=
  match entries.find? (fun p => p.1 == c) with
  | some e => Q c e.2
  | none => true

/-- The per-numeric-column contribution of one pass of the filtering loop:
no spec entry or a closed gate keeps the row, otherwise the range test. -/
def numStep (df : DataFrame) (spec : FilterSpec) (c : String) (r : Row) : Bool :=
  match spec.numRanges.find? (fun p => p.1 == c) with
  | some e => if numGate df c then inRange df r c e.2.1 e.2.2 else true
  | none => true

/-- The per-categorical-column contribution of one pass of the filtering
loop. -/
def catStep (df : DataFrame) (spec : FilterSpec) (c : String) (r : Row) : Bool :=
  match spec.catAllowed.find? (fun p => p.1 == c) with
  | some e => if catGate df c ∧ e.2 ≠ [] then inAllowed df r c e.2 else true
  | none => true

/-- The total row predicate the filtering loops implement. -/
def rowPassesCode (df : DataFrame) (spec : FilterSpec) (r : Row) : Bool :=
  df.numericCols.all (fun c => numStep df spec c r)
    && df.objectCols.all (fun c => catStep df spec c r)

/-- The claim-side row predicate: the conjunction over the specification's
per-column predicates, where a numeric column whose minimum equals its
maximum contributes no predicate and a categorical predicate with an empty
allowed set contributes no predicate. -/
def specPasses (df : DataFrame) (spec : FilterSpec) (r : Row) : Bool :=
  spec.numRanges.all
      (fun e => if numGate df e.1 then inRange df r e.1 e.2.1 e.2.2 else true)
    && spec.catAllowed.all
      (fun e => if e.2.isEmpty then true else inAllowed df r e.1 e.2)

/-- A filter specification as the filtering controls can produce it for `df`:
numeric ranges only on numeric columns, allowed sets only on categorical
columns with at most 20 distinct values, and at most one entry per column. -/
def FilterSpec.WellFormedFor (spec : FilterSpec) (df : DataFrame) : Prop :=
  (∀ e ∈ spec.numRanges, e.1 ∈ df.numericCols)
  ∧ (spec.numRanges.map Prod.fst).Nodup
  ∧ (∀ e ∈ spec.catAllowed, e.1 ∈ df.objectCols ∧ df.nunique e.1 ≤ 20)
  ∧ (spec.catAllowed.map Prod.fst).Nodup

/-- A concrete dataframe used to witness the filtering theorems: a numeric
column `n` and a categorical column `c`, three rows. -/
def wDf : DataFrame :=
  { cols := [("n", Dtype.number), ("c", Dtype.object)]
    rows := [[CellValue.num 1, CellValue.str "a"],
             [CellValue.num 2, CellValue.str "b"],
             [CellValue.num 3, CellValue.str "a"]] }

/-- A concrete well-formed filter specification for `wDf`: keep `n ∈ [1, 2]`
and `c ∈ {"a"}`. -/
def wSpec : FilterSpec :=
  { numRanges := [("n", 1, 2)]
    catAllowed := [("c", [CellValue.str "a"])] }

/-- A concrete CSV decoder used as witness input. -/
def wCsvDecode : String → Except String DataFrame :=
  fun s => if s = "good" then .ok wDf else .error "bad csv"

/-- A concrete JSON decoder used as witness input. -/
def wJsonDecode : String → Except String DataFrame :=
  fun s => if s = "good" then .ok wDf else .error "bad json"

/-- The claim-side tie-break: the first value, in order of first encounter in
the column, among those of maximal frequency. -/
def firstEncounterMostFrequent (l : List String) : Option String :=
  (firstUniques l).find? (fun v => l.count v == maxCount l)

/-- The "Most Frequent" entry the statistical summary reports for a
categorical column of a dataframe. -/
def summaryMostFrequent (df : DataFrame) (c : String) : Option String :=
  mostFrequent (df.catStrings c)

/-- A two-row dataframe whose categorical column holds `"b"` then `"a"`:
both values occur once, so they tie for maximal frequency. -/
def dfTie : DataFrame :=
  { cols := [("c", Dtype.object)]
    rows := [[CellValue.str "b"], [CellValue.str "a"]] }

/-- The error taxonomy §7 of the specification assigns to chart building. -/
inductive ChartError where
  | invalidColumn (col : String) (kind : String)
  | constructionError (kind : String) (cause : String)
deriving DecidableEq, Repr

/-- Modelled from the spec: the chart builder the specification describes —
it validates that the x and y columns exist, failing with `InvalidColumn`
naming the offending column and the chart kind, and wraps any other
construction failure into a `ChartConstructionError` carrying the chart kind
and the original cause.  The source builders perform no such validation; this
definition exists to be compared with them. -/
def chartBuilderSpec (kind : String) (data : DataFrame) (x y ttl : String)
    (color size : Option String) (hgt : Nat) : Except ChartError Figure :=
  if x ∉ data.colNames then .error (.invalidColumn x kind)
  else if y ∉ data.colNames then .error (.invalidColumn y kind)
  else match pxChart kind data x y color size ttl hgt with
    | .ok fig => .ok (updateLayout fig)
    | .error e => .error (.constructionError kind e)

/-- A concrete sampler honouring the requested draw counts. -/
def wSampler : Sampler :=
  { seedState := fun s => s
    normal := fun st m _ n => (List.replicate n m, st + 1)
    choice := fun st vs n => (List.replicate n (vs.headD ""), st + 1)
    poisson := fun st _ n => (List.replicate n 50, st + 1) }

/-! ## Verification -/

/-! ## General lemmas -/

/-- A list whose minimum differs from its maximum holds two distinct
elements, and conversely. -/
theorem min?_ne_max?_iff {l : List ℚ} :
    l.min? ≠ l.max? ↔ ∃ a ∈ l, ∃ b ∈ l, a ≠ b := by
  constructor
  · intro h
    match l with
    | [] => simp [List.min?, List.max?] at h
    | x :: xs =>
        obtain ⟨m, hm⟩ : ∃ m, (x :: xs).min? = some m := ⟨_, rfl⟩
        obtain ⟨M, hM⟩ : ∃ M, (x :: xs).max? = some M := ⟨_, rfl⟩
        refine ⟨m, List.min?_mem (fun a b => min_choice a b) hm,
          M, List.max?_mem (fun a b => max_choice a b) hM, ?_⟩
        intro hmM
        exact h (by rw [hm, hM, hmM])
  · rintro ⟨a, ha, b, hb, hab⟩ h
    match l with
    | [] => cases ha
    | x :: xs =>
        obtain ⟨m, hm⟩ : ∃ m, (x :: xs).min? = some m := ⟨_, rfl⟩
        obtain ⟨M, hM⟩ : ∃ M, (x :: xs).max? = some M := ⟨_, rfl⟩
        have hmin := (List.le_min?_iff (fun _ _ _ => le_min_iff) hm (a := m)).mp le_rfl
        have hmax := (List.max?_le_iff (fun _ _ _ => max_le_iff) hM (a := M)).mp le_rfl
        have hMm : M = m := by
          have := hm ▸ h ▸ hM
          exact (Option.some.injEq _ _ ▸ this.symm :)
        have h1 : a = m := le_antisymm (hMm ▸ hmax a ha) (hmin a ha)
        have h2 : b = m := le_antisymm (hMm ▸ hmax b hb) (hmin b hb)
        exact hab (h1.trans h2.symm)

/-- In a key-deduplicated association list, looking a member's key up finds
exactly that member. -/
theorem find?_of_nodup_keys {β : Type} {entries : List (String × β)}
    (hnd : (entries.map Prod.fst).Nodup) {e : String × β} (he : e ∈ entries) :
    entries.find? (fun p => p.1 == e.1) = some e := by
  induction entries with
  | nil => cases he
  | cons a rest ih =>
      rcases List.mem_cons.mp he with rfl | hrest
      · simp [List.find?]
      · have hne : a.1 ≠ e.1 := by
          intro hkey
          have : e.1 ∈ rest.map Prod.fst := List.mem_map_of_mem Prod.fst hrest
          exact (List.nodup_cons.mp hnd).1 (hkey ▸ this)
        have : (a.1 == e.1) = false := beq_false_of_ne hne
        simp only [List.find?, this]
        exact ih (List.nodup_cons.mp hnd).2 hrest

/-- Conjoining the lookup tests over the column list equals the conjunction
over the association-list entries, when every entry's key is a column and the
keys are deduplicated. -/
theorem all_lookup_eq {β : Type} (entries : List (String × β)) (cols : List String)
    (Q : String → β → Bool)
    (hsub : ∀ e ∈ entries, e.1 ∈ cols) (hnd : (entries.map Prod.fst).Nodup) :
    cols.all (lookupStep entries Q) = entries.all (fun e => Q e.1 e.2) := by
  unfold lookupStep
  rw [Bool.eq_iff_iff, List.all_eq_true, List.all_eq_true]
  constructor
  · intro h e he
    have hc := h e.1 (hsub e he)
    rw [find?_of_nodup_keys hnd he] at hc
    exact hc
  · intro h c
    intro _
    cases hfind : entries.find? (fun p => p.1 == c) with
    | none => rfl
    | some e =>
        have hmem := List.mem_of_find?_eq_some hfind
        have hkey : e.1 = c := by
          have := List.find?_some hfind
          exact eq_of_beq this
        simpa [hkey] using h e hmem

/-- Successively filtering a row list by a predicate per column equals one
filter by the conjunction over the columns. -/
theorem foldl_filter_eq (P : String → Row → Bool) (cols : List String)
    (cur : List Row) :
    cols.foldl (fun acc c => acc.filter (P c)) cur
      = cur.filter (fun r => cols.all (fun c => P c r)) := by
  induction cols generalizing cur with
  | nil => simp
  | cons c cs ih =>
      rw [List.foldl_cons, ih, List.filter_filter]
      apply List.filter_congr
      intro r _
      simp [Bool.and_comm]

/-! ## Characterizing the filter as one predicate -/

/-- The numeric loop is the single filter by the conjunction of its per-column
steps. -/
theorem applyNumericFilters_eq (df : DataFrame) (spec : FilterSpec) (cur : List Row) :
    applyNumericFilters df spec cur
      = cur.filter (fun r => df.numericCols.all (fun c => numStep df spec c r)) := by
  have hbody : (fun (acc : List Row) (c : String) =>
      match spec.numRanges.find? (fun p => p.1 == c) with
      | some (_, lo, hi) =>
          if numGate df c then acc.filter (fun r => inRange df r c lo hi) else acc
      | none => acc)
      = (fun acc c => acc.filter (fun r => numStep df spec c r)) := by
    funext acc c
    unfold numStep
    cases hfind : spec.numRanges.find? (fun p => p.1 == c) with
    | none => simp
    | some e =>
        obtain ⟨c1, lo, hi⟩ := e
        by_cases hg : numGate df c
        · simp [hg]
        · simp [hg]
  rw [applyNumericFilters, hbody, foldl_filter_eq]

/-- The categorical loop is the single filter by the conjunction of its
per-column steps. -/
theorem applyCatFilters_eq (df : DataFrame) (spec : FilterSpec) (cur : List Row) :
    applyCatFilters df spec cur
      = cur.filter (fun r => df.objectCols.all (fun c => catStep df spec c r)) := by
  have hbody : (fun (acc : List Row) (c : String) =>
      match spec.catAllowed.find? (fun p => p.1 == c) with
      | some (_, allowed) =>
          if catGate df c ∧ allowed ≠ [] then acc.filter (fun r => inAllowed df r c allowed)
          else acc
      | none => acc)
      = (fun acc c => acc.filter (fun r => catStep df spec c r)) := by
    funext acc c
    unfold catStep
    cases hfind : spec.catAllowed.find? (fun p => p.1 == c) with
    | none => simp
    | some e =>
        obtain ⟨c1, allowed⟩ := e
        by_cases hg : catGate df c ∧ allowed ≠ []
        · simp [hg]
        · simp [hg]
  rw [applyCatFilters, hbody, foldl_filter_eq]

/-- The whole filtering pass retains exactly the rows passing
`rowPassesCode`, in their original order. -/
theorem render_data_filtering_rows_eq (df : DataFrame) (spec : FilterSpec) :
    (render_data_filtering df spec).rows
      = df.rows.filter (rowPassesCode df spec) := by
  rw [render_data_filtering, applyNumericFilters_eq, applyCatFilters_eq,
    List.filter_filter]
  apply List.filter_congr
  intro r _
  simp [rowPassesCode, Bool.and_comm]

/-- `numStep` is the lookup test of the numeric ranges. -/
theorem numStep_eq_lookup (df : DataFrame) (spec : FilterSpec) (c : String) (r : Row) :
    numStep df spec c r
      = lookupStep spec.numRanges
          (fun c b => if numGate df c then inRange df r c b.1 b.2 else true) c := by
  unfold numStep lookupStep
  cases spec.numRanges.find? (fun p => p.1 == c) <;> rfl

/-- `catStep` is the lookup test of the categorical selections. -/
theorem catStep_eq_lookup (df : DataFrame) (spec : FilterSpec) (c : String) (r : Row) :
    catStep df spec c r
      = lookupStep spec.catAllowed
          (fun c b => if catGate df c ∧ b ≠ [] then inAllowed df r c b else true) c := by
  unfold catStep lookupStep
  cases spec.catAllowed.find? (fun p => p.1 == c) <;> rfl

/-- Under a well-formed specification the code's row predicate is exactly the
claim-side conjunction of per-column predicates. -/
theorem rowPassesCode_eq_specPasses (df : DataFrame) (spec : FilterSpec)
    (hwf : spec.WellFormedFor df) (r : Row) :
    rowPassesCode df spec r = specPasses df spec r := by
  obtain ⟨hn, hnd, hc, hcd⟩ := hwf
  unfold rowPassesCode specPasses
  have h1 : df.numericCols.all (fun c => numStep df spec c r)
      = spec.numRanges.all
          (fun e => if numGate df e.1 then inRange df r e.1 e.2.1 e.2.2 else true) := by
    simp only [numStep_eq_lookup]
    exact all_lookup_eq spec.numRanges df.numericCols _ (fun e he => hn e he) hnd
  have h2 : df.objectCols.all (fun c => catStep df spec c r)
      = spec.catAllowed.all
          (fun e => if e.2.isEmpty then true else inAllowed df r e.1 e.2) := by
    simp only [catStep_eq_lookup]
    rw [all_lookup_eq spec.catAllowed df.objectCols _ (fun e he => (hc e he).1) hcd]
    rw [Bool.eq_iff_iff, List.all_eq_true, List.all_eq_true]
    constructor
    · intro h e he
      have hg : catGate df e.1 := by
        unfold catGate
        exact decide_eq_true (hc e he).2
      have := h e he
      by_cases he2 : e.2 = []
      · simp [he2]
      · simpa [hg, he2, List.isEmpty_iff] using this
    · intro h e he
      have hg : catGate df e.1 := by
        unfold catGate
        exact decide_eq_true (hc e he).2
      have := h e he
      by_cases he2 : e.2 = []
      · simp [he2]
      · simpa [hg, he2, List.isEmpty_iff] using this
  rw [h1, h2]

/-- C1: For every source dataset and every filter specification, the data
filter retains exactly the rows satisfying the conjunction (logical AND) of
all per-column predicates, where a numeric range predicate `[min, max]` is
inclusive at both endpoints, a numeric column whose minimum equals its
maximum contributes no predicate, and a categorical membership predicate
whose allowed set is empty contributes no predicate (keeps all rows) rather
than excluding every row. -/
theorem filter_retains_exactly_conjunction (df : DataFrame) (spec : FilterSpec)
    (hwf : spec.WellFormedFor df) :
    (render_data_filtering df spec).rows = df.rows.filter (specPasses df spec) := by
  rw [render_data_filtering_rows_eq]
  exact List.filter_congr (fun r _ => rowPassesCode_eq_specPasses df spec hwf r)

/-- Witness for C1 at the concrete dataframe and specification. -/
theorem filter_retains_exactly_conjunction_witness :
    wSpec.WellFormedFor wDf
      ∧ (render_data_filtering wDf wSpec).rows = wDf.rows.filter (specPasses wDf wSpec) :=
  ⟨by unfold FilterSpec.WellFormedFor; decide,
   filter_retains_exactly_conjunction wDf wSpec (by unfold FilterSpec.WellFormedFor; decide)⟩

example : (render_data_filtering wDf wSpec).rows = [[CellValue.num 1, CellValue.str "a"]] := by decide

/-- C10: For every source dataset and filter specification, the filtered
dataset's rows form an order-preserving subsequence of the source dataset's
rows — no row is modified, duplicated, or reordered — and the column set and
column order are unchanged.  (The model is pure, mirroring the source, which
filters a copy of the dataframe and never mutates the original.) -/
theorem filter_rows_sublist (df : DataFrame) (spec : FilterSpec) :
    (render_data_filtering df spec).rows.Sublist df.rows
      ∧ (render_data_filtering df spec).cols = df.cols := by
  constructor
  · rw [render_data_filtering_rows_eq]
    exact List.filter_sublist df.rows
  · rfl

/-- Cell lookup is unchanged by filtering (the column structure is shared). -/
theorem render_getCell (df : DataFrame) (spec : FilterSpec) (r : Row) (c : String) :
    (render_data_filtering df spec).getCell r c = df.getCell r c := rfl

/-- A column of the filtered dataframe is a subsequence of the original
column. -/
theorem render_colCells_sublist (df : DataFrame) (spec : FilterSpec) (c : String) :
    ((render_data_filtering df spec).colCells c).Sublist (df.colCells c) := by
  unfold DataFrame.colCells
  have h : (render_data_filtering df spec).rows.Sublist df.rows :=
    (filter_rows_sublist df spec).1
  exact h.filterMap _

/-- Filtering cannot increase the number of distinct values of a column. -/
theorem nunique_render_le (df : DataFrame) (spec : FilterSpec) (c : String) :
    (render_data_filtering df spec).nunique c ≤ df.nunique c := by
  unfold DataFrame.nunique
  apply Finset.card_le_card
  intro v hv
  rw [List.mem_toFinset] at hv ⊢
  exact (render_colCells_sublist df spec c).subset hv

/-- If a numeric column still has spread after filtering, it had spread
before. -/
theorem numGate_render (df : DataFrame) (spec : FilterSpec) (c : String)
    (h : numGate (render_data_filtering df spec) c = true) : numGate df c = true := by
  unfold numGate at h ⊢
  rw [bne_iff_ne] at h ⊢
  rw [min?_ne_max?_iff] at h ⊢
  obtain ⟨a, ha, b, hb, hab⟩ := h
  have hsub : (numsOf ((render_data_filtering df spec).colCells c)).Sublist
      (numsOf (df.colCells c)) := (render_colCells_sublist df spec c).filterMap _
  exact ⟨a, hsub.subset ha, b, hsub.subset hb, hab⟩

/-- Two dataframes with the same columns and the same rows are equal. -/
theorem DataFrame.eq_of {a b : DataFrame} (h1 : a.cols = b.cols)
    (h2 : a.rows = b.rows) : a = b := by
  cases a
  cases b
  simp only at h1 h2
  rw [h1, h2]

/-- C8: The data filter is idempotent — applying it to the already-filtered
dataset with the same specification returns the same dataset as applying it
once.  The hypothesis records that the specification's categorical predicates
range over columns with at most 20 distinct values, which is the only kind of
categorical predicate the filtering controls offer. -/
theorem filter_idempotent (df : DataFrame) (spec : FilterSpec)
    (hcat : ∀ e ∈ spec.catAllowed, df.nunique e.1 ≤ 20) :
    render_data_filtering (render_data_filtering df spec) spec
      = render_data_filtering df spec := by
  refine DataFrame.eq_of rfl ?_
  rw [render_data_filtering_rows_eq (render_data_filtering df spec) spec]
  rw [List.filter_eq_self]
  intro r hr
  rw [render_data_filtering_rows_eq] at hr
  have hmem := List.mem_filter.mp hr
  have hpass : rowPassesCode df spec r = true := hmem.2
  unfold rowPassesCode at hpass ⊢
  rw [Bool.and_eq_true, List.all_eq_true, List.all_eq_true] at hpass ⊢
  obtain ⟨hnum, hcatp⟩ := hpass
  constructor
  · intro c hcmem
    have hc : c ∈ df.numericCols := hcmem
    have hstep := hnum c hc
    unfold numStep at hstep ⊢
    cases hfind : spec.numRanges.find? (fun p => p.1 == c) with
    | none => rfl
    | some e =>
        rw [hfind] at hstep
        by_cases hg : numGate (render_data_filtering df spec) c = true
        · have hg0 : numGate df c = true := numGate_render df spec c hg
          have hIR : inRange (render_data_filtering df spec) r c e.2.1 e.2.2
              = inRange df r c e.2.1 e.2.2 := rfl
          simp only [hg0, if_true] at hstep
          simp [hg, hIR]
          simpa using hstep
        · simp [hg]
  · intro c hcmem
    have hc : c ∈ df.objectCols := hcmem
    have hstep := hcatp c hc
    unfold catStep at hstep ⊢
    cases hfind : spec.catAllowed.find? (fun p => p.1 == c) with
    | none => rfl
    | some e =>
        rw [hfind] at hstep
        by_cases hemp : e.2 = []
        · simp [hemp]
        · have hg0 : catGate df c = true := by
            unfold catGate
            have hkey : e.1 = c := by
              have hb := List.find?_some hfind
              exact eq_of_beq hb
            exact decide_eq_true (hkey ▸ hcat e (List.mem_of_find?_eq_some hfind))
          have hg1 : catGate (render_data_filtering df spec) c = true := by
            unfold catGate at hg0 ⊢
            have h1 := nunique_render_le df spec c
            have h2 := of_decide_eq_true hg0
            exact decide_eq_true (le_trans h1 h2)
          have hIA : inAllowed (render_data_filtering df spec) r c e.2
              = inAllowed df r c e.2 := rfl
          simp only [hg0, hemp, if_true] at hstep
          simp [hg1, hemp, hIA]
          simpa [hg0, hemp] using hstep

/-- Witness for C8 at the concrete dataframe and specification. -/
theorem filter_idempotent_witness :
    (∀ e ∈ wSpec.catAllowed, wDf.nunique e.1 ≤ 20)
      ∧ render_data_filtering (render_data_filtering wDf wSpec) wSpec
          = render_data_filtering wDf wSpec :=
  ⟨by decide, filter_idempotent wDf wSpec (by decide)⟩

/-- C3: For every uploaded file, the loader dispatches on the declared
filename extension — a `.csv` suffix is decoded as CSV, otherwise a `.json`
suffix as JSON, and any other name yields the unsupported-format failure
without consulting either decoder; and the result is all-or-nothing: a
dataframe is returned exactly when the selected decoder returned that whole
dataframe. -/
theorem load_dispatch_all_or_nothing
    (csvD jsonD : String → Except String DataFrame) (name content : String) :
    (pyEndsWith name ".csv" = true →
        load_uploaded_data csvD jsonD name content = ofParse (csvD content))
    ∧ (pyEndsWith name ".csv" = false → pyEndsWith name ".json" = true →
        load_uploaded_data csvD jsonD name content = ofParse (jsonD content))
    ∧ (pyEndsWith name ".csv" = false → pyEndsWith name ".json" = false →
        load_uploaded_data csvD jsonD name content = .unsupportedFormat name)
    ∧ (∀ df, load_uploaded_data csvD jsonD name content = .ok df →
        csvD content = .ok df ∨ jsonD content = .ok df) := by
  refine ⟨?_, ?_, ?_, ?_⟩
  · intro h1
    simp [load_uploaded_data, h1]
  · intro h1 h2
    simp [load_uploaded_data, h1, h2]
  · intro h1 h2
    simp [load_uploaded_data, h1, h2]
  · intro df h
    unfold load_uploaded_data at h
    by_cases h1 : pyEndsWith name ".csv" = true
    · rw [if_pos h1] at h
      left
      cases hc : csvD content with
      | ok d => rw [hc] at h; simp only [ofParse] at h; cases h; rfl
      | error e => rw [hc] at h; simp only [ofParse] at h; cases h
    · rw [if_neg (by simpa using h1)] at h
      by_cases h2 : pyEndsWith name ".json" = true
      · rw [if_pos h2] at h
        right
        cases hc : jsonD content with
        | ok d => rw [hc] at h; simp only [ofParse] at h; cases h; rfl
        | error e => rw [hc] at h; simp only [ofParse] at h; cases h
      · rw [if_neg (by simpa using h2)] at h
        cases h

/-- Witness for C3: one accepted CSV, one failing JSON, one rejected
format, each obtained from the dispatch theorem. -/
theorem load_dispatch_all_or_nothing_witness :
    load_uploaded_data wCsvDecode wJsonDecode "data.csv" "good" = LoadResult.ok wDf
    ∧ load_uploaded_data wCsvDecode wJsonDecode "d.json" "bad" = LoadResult.loadError "bad json"
    ∧ load_uploaded_data wCsvDecode wJsonDecode "t.txt" "good"
        = LoadResult.unsupportedFormat "t.txt" := by
  refine ⟨?_, ?_, ?_⟩
  · rw [(load_dispatch_all_or_nothing wCsvDecode wJsonDecode "data.csv" "good").1
      (by decide)]
    rfl
  · rw [(load_dispatch_all_or_nothing wCsvDecode wJsonDecode "d.json" "bad").2.1
      (by decide) (by decide)]
    rfl
  · exact (load_dispatch_all_or_nothing wCsvDecode wJsonDecode "t.txt" "good").2.2.1
      (by decide) (by decide)

/-- C9: Format dispatch is a case-sensitive suffix match on the filename:
`data.csv` is decoded as CSV, the upper-case `DATA.CSV` is rejected as
unsupported, and `a.csv.json` is decoded as JSON — for every pair of decoders
and every file content. -/
theorem load_dispatch_case_sensitive
    (csvD jsonD : String → Except String DataFrame) (content : String) :
    load_uploaded_data csvD jsonD "data.csv" content = ofParse (csvD content)
    ∧ load_uploaded_data csvD jsonD "DATA.CSV" content
        = .unsupportedFormat "DATA.CSV"
    ∧ load_uploaded_data csvD jsonD "a.csv.json" content = ofParse (jsonD content) := by
  refine ⟨?_, ?_, ?_⟩
  · simp [load_uploaded_data, show (pyEndsWith "data.csv" ".csv") = true by decide]
  · simp [load_uploaded_data, show (pyEndsWith "DATA.CSV" ".csv") = false by decide,
      show (pyEndsWith "DATA.CSV" ".json") = false by decide]
  · simp [load_uploaded_data, show (pyEndsWith "a.csv.json" ".csv") = false by decide,
      show (pyEndsWith "a.csv.json" ".json") = true by decide]

/-- Membership in a fold that conditionally appends one element per list
entry. -/
theorem mem_foldl_append {α β : Type} (cond : β → Bool) (emit : β → α)
    (l : List β) (init : List α) (x : α) :
    x ∈ l.foldl (fun acc p => if cond p then acc ++ [emit p] else acc) init
      ↔ x ∈ init ∨ ∃ p ∈ l, cond p = true ∧ x = emit p := by
  induction l generalizing init with
  | nil => simp
  | cons a rest ih =>
      rw [List.foldl_cons]
      by_cases h : cond a = true
      · rw [if_pos h, ih]
        simp only [List.mem_append, List.mem_singleton, List.mem_cons,
          List.not_mem_nil, or_false]
        constructor
        · rintro ((hx | hx) | ⟨p, hp, hcp, hxp⟩)
          · exact Or.inl hx
          · exact Or.inr ⟨a, Or.inl rfl, h, hx⟩
          · exact Or.inr ⟨p, Or.inr hp, hcp, hxp⟩
        · rintro (hx | ⟨p, (rfl | hp), hcp, hxp⟩)
          · exact Or.inl (Or.inl hx)
          · exact Or.inl (Or.inr hxp)
          · exact Or.inr ⟨p, hp, hcp, hxp⟩
      · rw [if_neg h, ih]
        simp only [List.mem_cons]
        constructor
        · rintro (hx | ⟨p, hp, hcp, hxp⟩)
          · exact Or.inl hx
          · exact Or.inr ⟨p, Or.inr hp, hcp, hxp⟩
        · rintro (hx | ⟨p, (rfl | hp), hcp, hxp⟩)
          · exact Or.inl hx
          · exact absurd hcp h
          · exact Or.inr ⟨p, hp, hcp, hxp⟩

/-- The flag message determines the flagged column name. -/
theorem typeIssueMsg_inj {a b : String} (h : typeIssueMsg a = typeIssueMsg b) :
    a = b := by
  unfold typeIssueMsg at h
  have hd := congrArg String.data h
  simp only [String.data_append] at hd
  have h1 := List.append_cancel_right hd
  have h2 := List.append_cancel_left h1
  cases a
  cases b
  simp only at h2
  rw [h2]

/-- The quality-check fold written with a single condition per column. -/
theorem type_issues_eq_fold (coerce : String → Option ℚ) (df : DataFrame) :
    type_issues coerce df
      = df.cols.foldl (fun acc p =>
          if p.2 == Dtype.object && (df.colCells p.1).all (cellCoercible coerce)
          then acc ++ [typeIssueMsg p.1] else acc) [] := by
  unfold type_issues
  congr 1
  funext acc p
  by_cases h1 : p.2 == Dtype.object
  · by_cases h2 : (df.colCells p.1).all (cellCoercible coerce)
    · simp [h1, h2]
    · simp [h1, h2]
  · simp [h1]

/-- C4: The quality report flags a text-typed column as "numeric stored as
text" if and only if every value of that column coerces to a number; a
coercion failure on any single value excludes the whole column from the flag
list, and no non-text column is ever flagged. -/
theorem quality_flags_iff (coerce : String → Option ℚ) (df : DataFrame) (c : String) :
    typeIssueMsg c ∈ type_issues coerce df
      ↔ (c, Dtype.object) ∈ df.cols
          ∧ (df.colCells c).all (cellCoercible coerce) = true := by
  rw [type_issues_eq_fold, mem_foldl_append]
  constructor
  · rintro (hx | ⟨p, hp, hcp, hxp⟩)
    · cases hx
    · obtain ⟨pn, pd⟩ := p
      rw [Bool.and_eq_true] at hcp
      have hname : c = pn := typeIssueMsg_inj hxp
      have hobj : pd = Dtype.object := eq_of_beq hcp.1
      subst hname
      subst hobj
      exact ⟨hp, hcp.2⟩
  · rintro ⟨hmem, hall⟩
    exact Or.inr ⟨(c, Dtype.object), hmem, by simp [hall], rfl⟩

example :
    type_issues (fun s => if s = "1" then some 1 else none)
      ⟨[("a", Dtype.object), ("b", Dtype.object), ("n", Dtype.number)],
       [[CellValue.str "1", CellValue.str "x", CellValue.num 3]]⟩
      = [typeIssueMsg "a"] := by decide

/-- The lexicographic comparison is reflexive. -/
theorem charListLe_refl : ∀ as, charListLe as as = true := by
  intro as
  induction as with
  | nil => rfl
  | cons a as ih => simp [charListLe, Nat.lt_irrefl, ih]

/-- The lexicographic comparison is total. -/
theorem charListLe_total : ∀ as bs, charListLe as bs = false → charListLe bs as = true := by
  intro as
  induction as with
  | nil => intro bs h; cases h
  | cons a as ih =>
      intro bs h
      cases bs with
      | nil => rfl
      | cons b bs =>
          unfold charListLe at h ⊢
          by_cases h1 : a.toNat < b.toNat
          · rw [if_pos h1] at h; cases h
          · rw [if_neg h1] at h
            by_cases h2 : b.toNat < a.toNat
            · rw [if_pos h2]
            · rw [if_neg h2] at h
              rw [if_neg h2]
              have hba : ¬ a.toNat < b.toNat := h1
              rw [if_neg hba]
              exact ih bs h

/-- The lexicographic comparison is transitive. -/
theorem charListLe_trans :
    ∀ as bs cs, charListLe as bs = true → charListLe bs cs = true →
      charListLe as cs = true := by
  intro as
  induction as with
  | nil => intro bs cs _ _; rfl
  | cons a as ih =>
      intro bs cs h1 h2
      cases bs with
      | nil => cases h1
      | cons b bs =>
          cases cs with
          | nil => cases h2
          | cons c cs =>
              unfold charListLe at h1 h2 ⊢
              by_cases hab : a.toNat < b.toNat
              · by_cases hbc : b.toNat < c.toNat
                · rw [if_pos (by omega : a.toNat < c.toNat)]
                · rw [if_neg hbc] at h2
                  by_cases hcb : c.toNat < b.toNat
                  · rw [if_pos hcb] at h2; cases h2
                  · rw [if_neg hcb] at h2
                    rw [if_pos (by omega : a.toNat < c.toNat)]
              · rw [if_neg hab] at h1
                by_cases hba : b.toNat < a.toNat
                · rw [if_pos hba] at h1; cases h1
                · rw [if_neg hba] at h1
                  by_cases hbc : b.toNat < c.toNat
                  · rw [if_pos (by omega : a.toNat < c.toNat)]
                  · rw [if_neg hbc] at h2
                    by_cases hcb : c.toNat < b.toNat
                    · rw [if_pos hcb] at h2; cases h2
                    · rw [if_neg hcb] at h2
                      rw [if_neg (by omega : ¬ a.toNat < c.toNat),
                        if_neg (by omega : ¬ c.toNat < a.toNat)]
                      exact ih bs cs h1 h2

/-- `strLe` is reflexive. -/
theorem strLe_refl (a : String) : strLe a a = true := charListLe_refl a.data

/-- `strLe` is total. -/
theorem strLe_total (a b : String) (h : strLe a b = false) : strLe b a = true :=
  charListLe_total a.data b.data h

/-- `strLe` is transitive. -/
theorem strLe_trans {a b c : String} (h1 : strLe a b = true)
    (h2 : strLe b c = true) : strLe a c = true :=
  charListLe_trans a.data b.data c.data h1 h2

/-- Membership after an ascending insert. -/
theorem mem_insertAsc {x v : String} : ∀ {l : List String},
    x ∈ insertAsc v l ↔ x = v ∨ x ∈ l := by
  intro l
  induction l with
  | nil => simp [insertAsc]
  | cons w ws ih =>
      unfold insertAsc
      by_cases h : strLe v w = true
      · simp [h]
      · rw [if_neg h]
        simp only [List.mem_cons, ih]
        tauto

/-- Ascending insert preserves sortedness. -/
theorem sorted_insertAsc {v : String} : ∀ {l : List String},
    l.Sorted (fun a b => strLe a b = true) →
    (insertAsc v l).Sorted (fun a b => strLe a b = true) := by
  intro l
  induction l with
  | nil => intro _; simp [insertAsc]
  | cons w ws ih =>
      intro hs
      rw [List.sorted_cons] at hs
      unfold insertAsc
      by_cases h : strLe v w = true
      · rw [if_pos h, List.sorted_cons]
        refine ⟨?_, List.sorted_cons.mpr hs⟩
        intro b hb
        rcases List.mem_cons.mp hb with rfl | hb'
        · exact h
        · exact strLe_trans h (hs.1 b hb')
      · rw [if_neg h, List.sorted_cons]
        refine ⟨?_, ih hs.2⟩
        intro b hb
        rcases mem_insertAsc.mp hb with hbv | hb'
        · rw [hbv]
          exact strLe_total v w (by simpa using h)
        · exact hs.1 b hb'

/-- The insertion sort produces an ascending list. -/
theorem sorted_sortAsc (l : List String) :
    (sortAsc l).Sorted (fun a b => strLe a b = true) := by
  induction l with
  | nil => simp [sortAsc]
  | cons x xs ih => exact sorted_insertAsc ih

/-- The insertion sort preserves the elements. -/
theorem mem_sortAsc {x : String} {l : List String} : x ∈ sortAsc l ↔ x ∈ l := by
  induction l with
  | nil => simp [sortAsc]
  | cons y ys ih =>
      show x ∈ insertAsc y (sortAsc ys) ↔ _
      rw [mem_insertAsc, ih]
      simp

/-- Membership in the first-encounter deduplication fold. -/
theorem mem_foldl_uniq {x : String} : ∀ (l init : List String),
    x ∈ l.foldl (fun acc v => if v ∈ acc then acc else acc ++ [v]) init
      ↔ x ∈ init ∨ x ∈ l := by
  intro l
  induction l with
  | nil => simp
  | cons a rest ih =>
      intro init
      rw [List.foldl_cons]
      by_cases h : a ∈ init
      · rw [if_pos h, ih]
        simp only [List.mem_cons]
        constructor
        · rintro (hx | hx)
          · exact Or.inl hx
          · exact Or.inr (Or.inr hx)
        · rintro (hx | rfl | hx)
          · exact Or.inl hx
          · exact Or.inl h
          · exact Or.inr hx
      · rw [if_neg h, ih]
        simp only [List.mem_append, List.mem_singleton, List.mem_cons]
        tauto

/-- `firstUniques` preserves the elements. -/
theorem mem_firstUniques {x : String} {l : List String} :
    x ∈ firstUniques l ↔ x ∈ l := by
  unfold firstUniques
  rw [mem_foldl_uniq]
  simp

/-- Every occurrence count is bounded by `maxCount`. -/
theorem count_le_maxCount {l : List String} {w : String} (hw : w ∈ l) :
    l.count w ≤ maxCount l := by
  unfold maxCount
  have hmem : l.count w ∈ (firstUniques l).map (fun v => l.count v) :=
    List.mem_map_of_mem _ (mem_firstUniques.mpr hw)
  exact List.le_max?_getD_of_mem hmem

/-- C7 (amended): for every dataset and categorical column, the statistical
summary reports as most frequent a value of maximal frequency, and when
several values tie for maximal frequency the reported one is the least of
them in ascending (code-point lexicographic) order — pandas `mode()` returns
the modes sorted ascending, and `.iloc[0]` takes the head. -/
theorem summary_most_frequent_amended (df : DataFrame) (c v : String)
    (h : summaryMostFrequent df c = some v) :
    v ∈ df.catStrings c
    ∧ (∀ w ∈ df.catStrings c,
        (df.catStrings c).count w ≤ (df.catStrings c).count v)
    ∧ (∀ w ∈ df.catStrings c,
        (df.catStrings c).count w = (df.catStrings c).count v → strLe v w = true) := by
  unfold summaryMostFrequent mostFrequent at h
  cases hm : pandasMode (df.catStrings c) with
  | nil => rw [hm] at h; cases h
  | cons y ys =>
      rw [hm] at h
      cases h
      have hvmem : v ∈ pandasMode (df.catStrings c) := by
        rw [hm]
        exact List.mem_cons_self v ys
      have hcand : v ∈ (firstUniques (df.catStrings c)).filter
          (fun w => (df.catStrings c).count w == maxCount (df.catStrings c)) := by
        unfold pandasMode at hvmem
        exact mem_sortAsc.mp hvmem
      have hyu := (List.mem_filter.mp hcand).1
      have hycount : (df.catStrings c).count v = maxCount (df.catStrings c) := by
        have hb := (List.mem_filter.mp hcand).2
        simpa using hb
      have hyl : v ∈ df.catStrings c := mem_firstUniques.mp hyu
      refine ⟨hyl, ?_, ?_⟩
      · intro w hw
        rw [hycount]
        exact count_le_maxCount hw
      · intro w hw hcw
        have hwcand : w ∈ (firstUniques (df.catStrings c)).filter
            (fun u => (df.catStrings c).count u == maxCount (df.catStrings c)) :=
          List.mem_filter.mpr ⟨mem_firstUniques.mpr hw, by simp [hcw, hycount]⟩
        have hwmode : w ∈ pandasMode (df.catStrings c) := by
          unfold pandasMode
          exact mem_sortAsc.mpr hwcand
        rw [hm] at hwmode
        rcases List.mem_cons.mp hwmode with hwv | hwrest
        · rw [hwv]
          exact strLe_refl v
        · have hsorted := sorted_sortAsc ((firstUniques (df.catStrings c)).filter
            (fun u => (df.catStrings c).count u == maxCount (df.catStrings c)))
          have hm' : sortAsc ((firstUniques (df.catStrings c)).filter
              (fun u => (df.catStrings c).count u == maxCount (df.catStrings c)))
              = v :: ys := hm
          rw [hm'] at hsorted
          exact (List.sorted_cons.mp hsorted).1 w hwrest

/-- Counterexample to C7 as stated: on a tie the summary reports `"a"` (the
least value in ascending sort order), while the first value in order of first
encounter is `"b"`. -/
theorem summary_most_frequent_counterexample :
    dfTie.catStrings "c" = ["b", "a"]
    ∧ summaryMostFrequent dfTie "c" = some "a"
    ∧ firstEncounterMostFrequent (dfTie.catStrings "c") = some "b"
    ∧ summaryMostFrequent dfTie "c"
        ≠ firstEncounterMostFrequent (dfTie.catStrings "c") := by decide

/-- Witness for the amended C7 at the concrete tied column. -/
theorem summary_most_frequent_amended_witness :
    summaryMostFrequent dfTie "c" = some "a"
    ∧ ("a" ∈ dfTie.catStrings "c"
        ∧ (∀ w ∈ dfTie.catStrings "c",
            (dfTie.catStrings "c").count w ≤ (dfTie.catStrings "c").count "a")
        ∧ (∀ w ∈ dfTie.catStrings "c",
            (dfTie.catStrings "c").count w = (dfTie.catStrings "c").count "a" →
              strLe "a" w = true)) :=
  ⟨by decide, summary_most_frequent_amended dfTie "c" "a" (by decide)⟩

/-- Counterexample to C2 as stated: with an absent x-column the source bar
builder fails with the same single wrapped error it uses for every
construction failure (the `ChartConstructionError` shape, `"Failed to create
bar chart: ..."`), not with a distinct `InvalidColumn` failure as the
specification's builder does at the same input. -/
theorem chart_invalid_column_counterexample :
    create_bar_chart wDf "missing" "n" "t" none 400
      = .error ("Failed to create bar chart: " ++ pxMissingMsg "missing")
    ∧ chartBuilderSpec "bar" wDf "missing" "n" "t" none none 400
      = .error (ChartError.invalidColumn "missing" "bar")
    ∧ (∀ e, create_bar_chart wDf "missing" "n" "t" none 400 = .error e →
        ∃ cause, e = "Failed to create bar chart: " ++ cause) := by
  refine ⟨by rfl, by rfl, ?_⟩
  intro e he
  rw [show create_bar_chart wDf "missing" "n" "t" none 400
    = .error ("Failed to create bar chart: " ++ pxMissingMsg "missing") by rfl] at he
  cases he
  exact ⟨pxMissingMsg "missing", rfl⟩

/-- C2 (amended): every failure of the three chart builders is reported as
the single wrapped error carrying the chart kind and the original cause —
never a raw library error and never a distinct invalid-column error; an
absent x or y column fails through that same wrapper, with the cause naming
the offending column; and a successful build returns the fully configured
figure (derived axis titles, legend tied to the color column). -/
theorem chart_failures_single_wrapped_error (data : DataFrame)
    (x y ttl : String) (color size : Option String) (hgt : Nat) :
    (∀ e, create_bar_chart data x y ttl color hgt = .error e →
        ∃ cause, e = "Failed to create bar chart: " ++ cause)
    ∧ (∀ e, create_line_chart data x y ttl color hgt = .error e →
        ∃ cause, e = "Failed to create line chart: " ++ cause)
    ∧ (∀ e, create_scatter_plot data x y ttl color size hgt = .error e →
        ∃ cause, e = "Failed to create scatter plot: " ++ cause)
    ∧ (x ∉ data.colNames →
        create_bar_chart data x y ttl color hgt
          = .error ("Failed to create bar chart: " ++ pxMissingMsg x)
        ∧ create_line_chart data x y ttl color hgt
          = .error ("Failed to create line chart: " ++ pxMissingMsg x)
        ∧ create_scatter_plot data x y ttl color size hgt
          = .error ("Failed to create scatter plot: " ++ pxMissingMsg x))
    ∧ (x ∈ data.colNames → y ∉ data.colNames →
        create_bar_chart data x y ttl color hgt
          = .error ("Failed to create bar chart: " ++ pxMissingMsg y)
        ∧ create_line_chart data x y ttl color hgt
          = .error ("Failed to create line chart: " ++ pxMissingMsg y)
        ∧ create_scatter_plot data x y ttl color size hgt
          = .error ("Failed to create scatter plot: " ++ pxMissingMsg y))
    ∧ (∀ fig, create_bar_chart data x y ttl color hgt = .ok fig →
        fig.xaxis_title = axisTitle x ∧ fig.yaxis_title = axisTitle y
          ∧ fig.showlegend = color.isSome) := by
  refine ⟨?_, ?_, ?_, ?_, ?_, ?_⟩
  · intro e he
    unfold create_bar_chart at he
    cases hres : pxChart "bar" data x y color none ttl hgt with
    | ok fig => rw [hres] at he; cases he
    | error e' => rw [hres] at he; cases he; exact ⟨e', rfl⟩
  · intro e he
    unfold create_line_chart at he
    cases hres : pxChart "line" data x y color none ttl hgt with
    | ok fig => rw [hres] at he; cases he
    | error e' => rw [hres] at he; cases he; exact ⟨e', rfl⟩
  · intro e he
    unfold create_scatter_plot at he
    cases hres : pxChart "scatter" data x y color size ttl hgt with
    | ok fig => rw [hres] at he; cases he
    | error e' => rw [hres] at he; cases he; exact ⟨e', rfl⟩
  · intro hx
    have hb : ∀ kind sz, pxChart kind data x y color sz ttl hgt = .error (pxMissingMsg x) := by
      intro kind sz
      unfold pxChart
      rw [if_pos hx]
    exact ⟨by unfold create_bar_chart; rw [hb "bar" none],
      by unfold create_line_chart; rw [hb "line" none],
      by unfold create_scatter_plot; rw [hb "scatter" size]⟩
  · intro hx hy
    have hb : ∀ kind sz, pxChart kind data x y color sz ttl hgt = .error (pxMissingMsg y) := by
      intro kind sz
      unfold pxChart
      rw [if_neg (by simpa using hx), if_pos hy]
    exact ⟨by unfold create_bar_chart; rw [hb "bar" none],
      by unfold create_line_chart; rw [hb "line" none],
      by unfold create_scatter_plot; rw [hb "scatter" size]⟩
  · intro fig hfig
    unfold create_bar_chart at hfig
    cases hres : pxChart "bar" data x y color none ttl hgt with
    | error e' => rw [hres] at hfig; cases hfig
    | ok fig0 =>
        rw [hres] at hfig
        cases hfig
        have hx : fig0.x_col = x ∧ fig0.y_col = y ∧ fig0.color_col = color := by
          unfold pxChart at hres
          by_cases h1 : x ∉ data.colNames
          · rw [if_pos h1] at hres; cases hres
          · rw [if_neg h1] at hres
            by_cases h2 : y ∉ data.colNames
            · rw [if_pos h2] at hres; cases hres
            · rw [if_neg h2] at hres
              cases color with
              | some cc =>
                  simp only at hres
                  by_cases h3 : cc ∉ data.colNames
                  · rw [if_pos h3] at hres; cases hres
                  · rw [if_neg h3] at hres
                    cases hres
                    exact ⟨rfl, rfl, rfl⟩
              | none =>
                  simp only at hres
                  cases hres
                  exact ⟨rfl, rfl, rfl⟩
        obtain ⟨hx1, hx2, hx3⟩ := hx
        unfold updateLayout
        simp [hx1, hx2, hx3]

/-- Witness for the amended C2: a missing x-column on the concrete dataframe
produces the wrapped bar-chart error. -/
theorem chart_failures_single_wrapped_error_witness :
    create_bar_chart wDf "q" "n" "t" none 300
      = .error ("Failed to create bar chart: " ++ pxMissingMsg "q")
    ∧ create_line_chart wDf "q" "n" "t" none 300
      = .error ("Failed to create line chart: " ++ pxMissingMsg "q")
    ∧ create_scatter_plot wDf "q" "n" "t" none none 300
      = .error ("Failed to create scatter plot: " ++ pxMissingMsg "q") :=
  (chart_failures_single_wrapped_error wDf "q" "n" "t" none none 300).2.2.2.1
    (by decide)

/-- The row assembly yields one row per index when all seven column lists
have the same length. -/
theorem sampleRows_length : ∀ (n : Nat) (d : List ℚ) (s p : List ℤ)
    (c r : List String) (k : List ℕ) (t : List ℚ),
    d.length = n → s.length = n → p.length = n → c.length = n → r.length = n →
    k.length = n → t.length = n → (sampleRows d s p c r k t).length = n := by
  intro n
  induction n with
  | zero =>
      intro d s p c r k t hd hs hp hc hr hk ht
      rw [List.length_eq_zero] at hd
      subst hd
      simp [sampleRows]
  | succ m ih =>
      intro d s p c r k t hd hs hp hc hr hk ht
      cases d with
      | nil => cases hd
      | cons d0 d =>
          cases s with
          | nil => cases hs
          | cons s0 s =>
              cases p with
              | nil => cases hp
              | cons p0 p =>
                  cases c with
                  | nil => cases hc
                  | cons c0 c =>
                      cases r with
                      | nil => cases hr
                      | cons r0 r =>
                          cases k with
                          | nil => cases hk
                          | cons k0 k =>
                              cases t with
                              | nil => cases ht
                              | cons t0 t =>
                                  simp only [List.length_cons,
                                    Nat.succ.injEq] at hd hs hp hc hr hk ht
                                  show (sampleRows (d0 :: d) (s0 :: s) (p0 :: p)
                                    (c0 :: c) (r0 :: r) (k0 :: k) (t0 :: t)).length
                                    = m + 1
                                  rw [sampleRows]
                                  rw [List.length_cons]
                                  rw [ih d s p c r k t hd hs hp hc hr hk ht]

/-- C5: The sample dataset generator is deterministic — for any sampler
family and any two incoming generator states, the produced datasets are
identical (the fixed `seed(42)` discards the incoming state), and (for a
sampler honouring the requested draw counts, as numpy does) the dataset has
exactly 100 rows with the seven expected columns. -/
theorem sample_data_deterministic (S : Sampler) (s1 s2 : Nat)
    (hS : S.WellSized) :
    (load_sample_data S s1).1 = (load_sample_data S s2).1
    ∧ (load_sample_data S s1).1.cols = sampleCols
    ∧ (load_sample_data S s1).1.rows.length = 100 := by
  obtain ⟨hN, hC, hP⟩ := hS
  refine ⟨rfl, rfl, ?_⟩
  dsimp only [load_sample_data]
  apply sampleRows_length 100
  · rw [List.length_map, List.length_range]
  · simp [hN]
  · simp [hN]
  · simp [hC]
  · simp [hC]
  · simp [hP]
  · simp [hN]

/-- Witness for C5 at the concrete sampler and two different incoming
states. -/
theorem sample_data_deterministic_witness :
    wSampler.WellSized
    ∧ ((load_sample_data wSampler 0).1 = (load_sample_data wSampler 7).1
        ∧ (load_sample_data wSampler 0).1.cols = sampleCols
        ∧ (load_sample_data wSampler 0).1.rows.length = 100) :=
  ⟨⟨fun _ _ _ _ => by simp [wSampler], fun _ _ _ => by simp [wSampler],
      fun _ _ _ => by simp [wSampler]⟩,
   sample_data_deterministic wSampler 0 7
     ⟨fun _ _ _ _ => by simp [wSampler], fun _ _ _ => by simp [wSampler],
      fun _ _ _ => by simp [wSampler]⟩⟩

/-- `np.clip` keeps its result inside the requested band. -/
theorem npClip_mem (x lo hi : ℚ) (h : lo ≤ hi) :
    lo ≤ npClip x lo hi ∧ npClip x lo hi ≤ hi := by
  unfold npClip
  exact ⟨le_min (le_max_right x lo) h, min_le_right _ _⟩

/-- Rounding to one decimal keeps a value of `[1, 5]` inside `[1, 5]`. -/
theorem roundTo1_mem {x : ℚ} (h1 : 1 ≤ x) (h5 : x ≤ 5) :
    1 ≤ roundTo1 x ∧ roundTo1 x ≤ 5 := by
  unfold roundTo1
  have hmono : ∀ a b : ℚ, a ≤ b → round a ≤ round b := by
    intro a b hab
    rw [round_eq, round_eq]
    exact Int.floor_le_floor (by linarith)
  have hlo : (10 : ℤ) ≤ round (x * 10) := by
    have h := hmono 10 (x * 10) (by linarith)
    simpa using h
  have hhi : round (x * 10) ≤ (50 : ℤ) := by
    have h := hmono (x * 10) 50 (by linarith)
    simpa using h
  constructor
  · rw [le_div_iff₀ (by norm_num : (0:ℚ) < 10)]
    calc (1 : ℚ) * 10 = ((10 : ℤ) : ℚ) := by norm_num
    _ ≤ ((round (x * 10) : ℤ) : ℚ) := by exact_mod_cast hlo
  · rw [div_le_iff₀ (by norm_num : (0:ℚ) < 10)]
    calc ((round (x * 10) : ℤ) : ℚ) ≤ ((50 : ℤ) : ℚ) := by exact_mod_cast hhi
    _ = 5 * 10 := by norm_num
